import Mathlib

/-!
Verification development for the progress-hook repository.

The file shallowly embeds the parts of the code the claims are about:

* `ProgressHook` — the task-runner state machine of `useProgressOf` in
  `src/progress.ts`: the dispatched `State` union, the mutable cell `my`
  (aborted flag, epoch counter `calls`, canceller list), the events the
  runner reacts to (`start`, `abort`, producer resolution/rejection,
  `post`, `onAbort` registration), the `when` visitor, and the `Progress`
  context handed to producers.  The runner is single-threaded and
  cooperative; each event is one atomic step on the state, matching the
  React dispatch/effect turn structure of the source.  Cancellation
  callbacks are identified by numeric labels so that their invocation
  order can be observed.  Rejection reasons are modelled as strings,
  matching the string sentinels ("aborted", "timeout") of the source.
* `withTimeout` — the deadline racer of the support module.  A settled
  promise is modelled by its settle time together with its outcome;
  `Promise.race` picks the promise that settles first (the first listed
  one on a tie).
* `HackerNews` — the paginated listing-fetch orchestrator `fetchPage`:
  the per-listing-kind identifier cache, the page slice, the shared
  progress array posted after each item resolution except the last
  (`if (--remaining) { ... }` in the source), and the 10 000 time-unit
  deadline on the aggregate of all item fetches.  Item fetches are the
  external collaborator; they are modelled by a function from identifier
  to item record and a settlement schedule (the order in which the
  concurrent fetches resolve) plus the time at which the aggregate
  settles.  The `slowly` option of the source only staggers start times
  and re-checks liveness; it changes timing, which the schedule and the
  aggregate settle time already absorb, so it has no separate field here.
-/

namespace ProgressHook

/-- State union of `useProgressOf` (progress.ts): `idle`, `started`
(`Running` with the start parameters), `pending` (`Busy` with the last
posted status), `resolved`, `rejected` (keeping the parameters for
retry), `aborted`. -/
inductive TaskState (P S T : Type) where
  | idle : TaskState P S T
  | started (params : P) : TaskState P S T
  | pending (status : S) : TaskState P S T
  | resolved (payload : T) : TaskState P S T
  | rejected (reason : String) (params : P) : TaskState P S T
  | aborted : TaskState P S T
  deriving DecidableEq

/-- Whole state of one hook instance: the dispatched `state` plus the
mutable ref cell `my` of the source (`aborted`, the epoch counter
`calls`, and the registered cancellation callbacks in registration
order). -/
structure Hook (P S T : Type) where
  state : TaskState P S T
  aborted : Bool
  calls : Nat
  cancellers : List Nat
  deriving DecidableEq

variable {P S T : Type}

/-- Initial hook: `useState({tag: "idle"})`, `aborted: false`,
`calls: 0`, empty canceller list. -/
def initialHook : Hook P S T :=
  { state := .idle, aborted := false, calls := 0, cancellers := [] }

/-- Liveness check captured by `newContext`: the caller's captured round
still equals the live epoch and the task is not aborted
(`round === my.calls && !my.aborted`). -/
def isActive (h : Hook P S T) (round : Nat) : Bool :=
  round == h.calls && !h.aborted

/-- Status report by the producer: `post` of the context dispatches
`{tag: "pending", status}`.  The source closure has the captured `round`
in scope but does not consult it, so the parameter is carried here and
ignored, exactly as in the source. -/
def post (h : Hook P S T) (round : Nat) (status : S) : Hook P S T :=
  { h with state := .pending status }

/-- Registration of a cancellation callback:
`my.cancellers.push(callback)`, unconditionally. -/
def onAbort (h : Hook P S T) (c : Nat) : Hook P S T :=
  { h with cancellers := h.cancellers ++ [c] }

/-- Producer resolution arriving with its captured round: applied only
under `context.isActive()`, in which case the canceller list is cleared
and `{tag: "resolved", payload}` is dispatched; otherwise dropped. -/
def resolveEvent (h : Hook P S T) (round : Nat) (payload : T) : Hook P S T :=
  if isActive h round then
    { h with cancellers := [], state := .resolved payload }
  else h

/-- Producer rejection arriving with its captured round: applied only
under `context.isActive()`, clearing the cancellers and keeping the
parameters of the failed attempt for retry; otherwise dropped. -/
def rejectEvent (h : Hook P S T) (round : Nat) (reason : String) (params : P) :
    Hook P S T :=
  if isActive h round then
    { h with cancellers := [], state := .rejected reason params }
  else h

/-- Consumer `abort()`: when not already aborted, runs `cleanUp`
(invoking every registered canceller in registration order and clearing
the list), sets the aborted flag and dispatches the aborted state;
otherwise keeps the previous state.  Returns the new hook together with
the list of callbacks invoked, in invocation order. -/
def abortEvent (h : Hook P S T) : Hook P S T × List Nat :=
  if h.aborted then (h, [])
  else ({ h with state := .aborted, aborted := true, cancellers := [] },
        h.cancellers)

/-- Result of a `start(...)` turn: the new hook state, the cancellation
callbacks flushed while superseding the previous run, and the epoch and
parameters captured by the freshly spawned producer invocation. -/
structure StartResult (P S T : Type) where
  hook : Hook P S T
  flushed : List Nat
  runRound : Nat
  runParams : P
  deriving DecidableEq

/-- Consumer `start(params)` followed by the `onStart` effect turn: the
started state is dispatched, the previous run's cancellers are flushed
(`my.cleanUp()`), the aborted flag is reset, and `newContext` bumps the
epoch (`++my.calls`); the producer is invoked exactly once with `params`
under the new epoch. -/
def startEvent (h : Hook P S T) (params : P) : StartResult P S T :=
  { hook := { state := .started params, aborted := false,
              calls := h.calls + 1, cancellers := [] },
    flushed := h.cancellers,
    runRound := h.calls + 1,
    runParams := params }

/-- Externally visible observation produced by the `when` visitor: the
five branches `idle`, `busy(abort, status?)`, `done(result)`,
`failed(reason, retry)`, where the retry affordance is represented by
the parameters it would re-start with (`none` for the no-op `pass`
handed out after an abort). -/
inductive Observation (P S T : Type) where
  | idle : Observation P S T
  | busy (status : Option S) : Observation P S T
  | done (result : T) : Observation P S T
  | failed (reason : String) (retryParams : Option P) : Observation P S T
  deriving DecidableEq

/-- Visitor dispatch of `Task.when`: `aborted` is folded into `failed`
with the fixed sentinel reason "aborted" and the no-op retry `pass`;
`rejected` offers `() => my.start(...state.params)` as retry. -/
def when (h : Hook P S T) : Observation P S T :=
  match h.state with
  | .idle => .idle
  | .started _ => .busy none
  | .pending s => .busy (some s)
  | .resolved v => .done v
  | .rejected r p => .failed r (some p)
  | .aborted => .failed "aborted" none

/-- Effect of invoking the retry closure handed out by the `failed`
branch: from a rejected state it is `my.start` applied to the stored
parameters (returning also the epoch and parameters the producer is
re-invoked with); from the aborted state the closure is `pass`, so
nothing happens and no producer is invoked. -/
def retryEvent (h : Hook P S T) : Hook P S T × Option (Nat × P) :=
  match h.state with
  | .rejected _ params =>
    ((startEvent h params).hook,
     some ((startEvent h params).runRound, (startEvent h params).runParams))
  | _ => (h, none)

/-- Progress context view handed to a producer, as a record of the
operations it may perform on the hook state: posting a status,
registering a cancellation callback, and the liveness check bound to
the captured epoch. -/
structure Context (P S T : Type) where
  round : Nat
  postOp : Hook P S T → S → Hook P S T
  onAbortOp : Hook P S T → Nat → Hook P S T
  activeOp : Hook P S T → Bool

/-- Context created by `newContext` for the run with the given captured
round: the real `post`, the real `onAbort`, and `isActive` specialised
to the captured round. -/
def newContext (round : Nat) : Context P S T :=
  { round := round,
    postOp := fun h s => post h round s,
    onAbortOp := onAbort,
    activeOp := fun h => isActive h round }

/-- Modelled from the spec: the `extend` method of the Progress context
(the spec's `delegate`) is implemented in the published library package
and is absent from src/ — only its callers in the orchestrator and the
`Progress` type declarations appear there.  Per the spec it returns the
caller-supplied auxiliary methods combined with a view of this context
whose `post` is replaced by a no-op, while liveness and cancellation
registration are shared with the parent run. -/
def extend {A : Type} (aux : A) (ctx : Context P S T) : A × Context P S T :=
  (aux, { ctx with postOp := fun h _ => h })

end ProgressHook

/-- Outcome of a settled promise: resolved with a value or rejected
with a reason (reasons are the string sentinels of the source). -/
inductive PromiseOutcome (α : Type) where
  | resolved (value : α) : PromiseOutcome α
  | rejected (reason : String) : PromiseOutcome α
  deriving DecidableEq

/-- Denotation of `Promise.race` on two settled promises, each given by
its settle time and outcome: the promise settling first wins, the first
listed one on a tie. -/
def race {α : Type} (a b : Nat × PromiseOutcome α) : Nat × PromiseOutcome α :=
  if b.1 < a.1 then b else a

/-- Deadline racer `withTimeout` of the support module: races the given
pending operation against a timer that rejects with the fixed sentinel
"timeout" once `maxDuration` time units elapse. -/
def withTimeout {α : Type} (maxDuration : Nat) (promise : Nat × PromiseOutcome α) :
    Nat × PromiseOutcome α :=
  race (maxDuration, .rejected "timeout") promise

namespace HackerNews

/-- Story record of the Hacker News item union (the source field `by` is
a Lean keyword and is rendered `author`; the `type` tag is carried by
the `Root` constructor). -/
structure Story where
  id : Nat
  author : String
  time : Nat
  deleted : Option Bool
  dead : Option Bool
  title : String
  url : String
  descendants : Nat
  kids : List Nat
  score : Nat
  deriving DecidableEq

/-- Job record of the Hacker News item union. -/
structure Job where
  id : Nat
  author : String
  time : Nat
  deleted : Option Bool
  dead : Option Bool
  title : String
  text : String
  url : String
  score : Nat
  deriving DecidableEq

/-- Root items (`Root = Story | Job`), the only variants the orchestrator
surfaces as page results. -/
inductive Root where
  | story (s : Story) : Root
  | job (j : Job) : Root
  deriving DecidableEq

/-- Listing kinds of the identifier cache. -/
inductive Listing where
  | top : Listing
  | best : Listing
  | new : Listing
  deriving DecidableEq

/-- Process-wide identifier cache, one ordered identifier list per
listing kind (`const cache = { top: [], best: [], new: [] }`). -/
structure Cache where
  top : List Nat
  best : List Nat
  new : List Nat
  deriving DecidableEq

/-- Entry of the cache for a listing kind (`cache[which]`). -/
def Cache.entry (c : Cache) : Listing → List Nat
  | .top => c.top
  | .best => c.best
  | .new => c.new

/-- Wholesale replacement of one cache entry, the other kinds
untouched (the `splice(0, cached.length, ...)` of the source replaces
the contents of the entry in place). -/
def Cache.setEntry (c : Cache) : Listing → List Nat → Cache
  | .top, l => { c with top := l }
  | .best, l => { c with best := l }
  | .new, l => { c with new := l }

/-- Fresh cache with every entry empty. -/
def emptyCache : Cache := { top := [], best := [], new := [] }

/-- Everything one run of `fetchPage` does that the claims observe:
whether the identifier-list collaborator was invoked, the cache after
the run, the identifiers handed to the item-fetch collaborator, the
successive snapshots of the shared progress array at each `post`, and
the settled result of the deadline race. -/
structure PageRun (R : Type) where
  listingFetched : Bool
  cacheAfter : Cache
  itemFetchIds : List Nat
  posts : List (List (Nat ⊕ R))
  result : Nat × PromiseOutcome (List R)
  deriving DecidableEq

/-- Discriminates a slot of the shared progress array that still holds
the raw identifier from one holding a resolved item. -/
def isRawId {R : Type} : Nat ⊕ R → Bool
  | .inl _ => true
  | .inr _ => false

/-- Loop over the item-fetch settlements in settlement order, mirroring
the tail of the map callback of `fetchPage`:
`if (--remaining) { partial[i] = item; this.post(partial); }`.
The slot write and the post triggered by the settlement that brings
`remaining` down to zero are both suppressed.  `remaining` starts at
`pageSize` and at most `itemIds.length ≤ pageSize` settlements occur, so
the truncated subtraction never clips. -/
def resolveLoop {R : Type} (f : Nat → R) (itemIds : List Nat) :
    List Nat → List (Nat ⊕ R) → Nat → List (List (Nat ⊕ R))
  | [], _, _ => []
  | i :: rest, slots, remaining =>
    if remaining - 1 = 0 then
      resolveLoop f itemIds rest slots (remaining - 1)
    else
      (slots.set i (Sum.inr (f (itemIds.getD i 0)))) ::
        resolveLoop f itemIds rest
          (slots.set i (Sum.inr (f (itemIds.getD i 0)))) (remaining - 1)

/-- One run of `fetchPage` (hackernews module):

1. refetch the identifier list and replace the cache entry when `forced`
   or the entry is empty (`if (forced || !cached.length)`);
2. return the empty page when `start = page * pageSize` is at or past
   the cached length (`if (start >= cached.length) return []`);
3. otherwise slice `pageSize` identifiers, post the raw-identifier
   array (`const partial = [...itemIds]; this.post(partial)`), fetch
   every identifier via the delegated sub-context, re-posting the shared
   array after each settlement except the last (`resolveLoop`), and race
   the aggregate of all fetches against the fixed 10 000 time-unit
   deadline.

The item-fetch collaborator is modelled by `f` (every fetch resolves,
with `schedule` giving the order in which the concurrent fetches settle
and `allTime` the time at which their `Promise.all` aggregate settles);
the listing collaborator resolves with `listing`. -/
def fetchPage {R : Type} (f : Nat → R) (listing : List Nat) (cache : Cache)
    (schedule : List Nat) (allTime : Nat) (page : Nat) (pageSize : Nat)
    (forced : Bool) (which : Listing) : PageRun R :=
  let cached := cache.entry which
  let refetch := forced || cached.isEmpty
  let cached' := if refetch then listing else cached
  let cacheAfter := if refetch then cache.setEntry which listing else cache
  let start := page * pageSize
  if cached'.length ≤ start then
    { listingFetched := refetch, cacheAfter := cacheAfter,
      itemFetchIds := [], posts := [], result := (0, .resolved []) }
  else
    let itemIds := (cached'.drop start).take pageSize
    let slots0 : List (Nat ⊕ R) := itemIds.map Sum.inl
    { listingFetched := refetch, cacheAfter := cacheAfter,
      itemFetchIds := itemIds,
      posts := slots0 :: resolveLoop f itemIds schedule slots0 pageSize,
      result := withTimeout 10000 (allTime, .resolved (itemIds.map f)) }

/-- Concrete item record used by concrete evaluations. -/
def mkItem (n : Nat) : Root :=
  .story { id := n, author := "a", time := 0, deleted := none, dead := none,
           title := "t", url := "u", descendants := 0, kids := [], score := 0 }

end HackerNews

namespace ProgressHook

variable {P S T : Type}

/-- Registering a list of cancellation callbacks appends them, in
order, to the canceller list and changes nothing else. -/
lemma foldl_onAbort (cs : List Nat) (h : Hook P S T) :
    cs.foldl onAbort h = { h with cancellers := h.cancellers ++ cs } := by
  induction cs generalizing h with
  | nil => simp
  | cons c rest ih => simp [onAbort, ih]

/-- C1 counterexample: a status report posted through a superseded
context is not dropped.  Concretely, start a run, abort it (the context
of round 1 is then inactive), and let the producer post the status 7:
the hook leaves the aborted state and the consumer observes the busy
branch carrying 7, so `post` is not a no-op while inactive. -/
theorem post_after_abort_not_dropped :
    isActive
        (abortEvent (startEvent (initialHook : Hook Nat Nat Nat) 5).hook).1 1
      = false
    ∧ (post (abortEvent (startEvent (initialHook : Hook Nat Nat Nat) 5).hook).1
          1 7).state = .pending 7
    ∧ post (abortEvent (startEvent (initialHook : Hook Nat Nat Nat) 5).hook).1
          1 7
        ≠ (abortEvent (startEvent (initialHook : Hook Nat Nat Nat) 5).hook).1
    ∧ when (post
          (abortEvent (startEvent (initialHook : Hook Nat Nat Nat) 5).hook).1
          1 7)
        = .busy (some 7) := by
  decide

/-- C1 amended: `post` is not guarded by the epoch/liveness check.  For
every hook state, captured round and status, `post` transitions the
task to the busy state carrying that status — also when the captured
round no longer matches the live epoch or the task is aborted — leaving
the aborted flag, the epoch counter and the canceller list unchanged.
Only producer completions are covered by the epoch/abort guard. -/
theorem post_unguarded (h : Hook P S T) (round : Nat) (status : S) :
    (post h round status).state = .pending status
    ∧ when (post h round status) = .busy (some status)
    ∧ (post h round status).aborted = h.aborted
    ∧ (post h round status).calls = h.calls
    ∧ (post h round status).cancellers = h.cancellers := by
  exact ⟨rfl, rfl, rfl, rfl, rfl⟩

/-- C2: epoch safety of completions.  A producer resolution or rejection
whose captured round differs from the live epoch, or which arrives after
abort, leaves the whole hook state unchanged; `start` hands the new run
a round equal to the bumped live epoch with the aborted flag cleared, so
a completion of any earlier run (its round is at most the previous
epoch) is a no-op on the new hook, while a completion carrying the live
round with no abort is applied. -/
theorem stale_completion_dropped (h : Hook P S T) (round : Nat) (v : T)
    (r : String) (p q : P) :
    (round ≠ h.calls ∨ h.aborted = true →
      resolveEvent h round v = h ∧ rejectEvent h round r p = h)
    ∧ ((startEvent h q).runRound = (startEvent h q).hook.calls
       ∧ (startEvent h q).hook.aborted = false
       ∧ (startEvent h q).hook.calls = h.calls + 1
       ∧ (startEvent h q).runParams = q)
    ∧ (round ≤ h.calls →
      resolveEvent (startEvent h q).hook round v = (startEvent h q).hook
      ∧ rejectEvent (startEvent h q).hook round r p = (startEvent h q).hook)
    ∧ (round = h.calls → h.aborted = false →
      (resolveEvent h round v).state = .resolved v
      ∧ (rejectEvent h round r p).state = .rejected r p) := by
  refine ⟨?_, ⟨rfl, rfl, rfl, rfl⟩, ?_, ?_⟩
  · intro hst
    have hin : isActive h round = false := by
      cases hst with
      | inl hne => simp [isActive, hne]
      | inr hab => simp [isActive, hab]
    simp [resolveEvent, rejectEvent, hin]
  · intro hle
    have hin : isActive (startEvent h q).hook round = false := by
      have : round ≠ h.calls + 1 := by omega
      simp [isActive, startEvent, this]
    simp [resolveEvent, rejectEvent, hin]
  · intro h1 h2
    have hin : isActive h round = true := by simp [isActive, h1, h2]
    simp [resolveEvent, rejectEvent, hin]

/-- C2 witness: after starting a fresh hook (live epoch 1), a completion
captured at round 5 is dropped wholesale, and the live round 1
completion is applied. -/
theorem stale_completion_dropped_witness :
    (resolveEvent (startEvent (initialHook : Hook Nat Nat Nat) 0).hook 5 3
        = (startEvent (initialHook : Hook Nat Nat Nat) 0).hook
      ∧ rejectEvent (startEvent (initialHook : Hook Nat Nat Nat) 0).hook 5
          "boom" 0
        = (startEvent (initialHook : Hook Nat Nat Nat) 0).hook)
    ∧ ((resolveEvent (startEvent (initialHook : Hook Nat Nat Nat) 0).hook 1
          3).state = .resolved 3
      ∧ (rejectEvent (startEvent (initialHook : Hook Nat Nat Nat) 0).hook 1
          "boom" 0).state = .rejected "boom" 0) :=
  ⟨(stale_completion_dropped
      (startEvent (initialHook : Hook Nat Nat Nat) 0).hook 5 3 "boom" 0 0).1
      (Or.inl (by decide)),
   (stale_completion_dropped
      (startEvent (initialHook : Hook Nat Nat Nat) 0).hook 1 3 "boom" 0
      0).2.2.2 (by decide) (by decide)⟩

end ProgressHook

namespace ProgressHook

variable {P S T : Type}

/-- C6: the retry affordance of the failed branch.  For a run that
failed without being aborted (a rejected state), the visitor hands out
the stored parameters and invoking retry re-invokes the producer, under
a fresh epoch, with exactly the parameters of the failed attempt.  When
the task was aborted — whose observed failure reason is the fixed
sentinel "aborted" — the retry handed out is the no-op `pass`: the hook
is unchanged and no producer invocation happens. -/
theorem retry_reuses_params (h : Hook P S T) :
    (∀ r p, h.state = .rejected r p →
      when h = .failed r (some p)
      ∧ retryEvent h = ((startEvent h p).hook, some (h.calls + 1, p))
      ∧ (startEvent h p).runParams = p)
    ∧ (h.state = .aborted →
      when h = .failed "aborted" none ∧ retryEvent h = (h, none)) := by
  constructor
  · intro r p hs
    exact ⟨by simp [when, hs], by simp [retryEvent, hs, startEvent], rfl⟩
  · intro hs
    exact ⟨by simp [when, hs], by simp [retryEvent, hs]⟩

/-- C6 witness: a concrete rejected hook retries with its exact
parameters, and a concrete aborted hook observes the sentinel reason
with the no-op retry. -/
theorem retry_reuses_params_witness :
    (when (rejectEvent (startEvent (initialHook : Hook Nat Nat Nat) 4).hook 1
          "boom" 4)
        = .failed "boom" (some 4)
      ∧ retryEvent (rejectEvent (startEvent (initialHook : Hook Nat Nat Nat) 4).hook
            1 "boom" 4)
        = ((startEvent (rejectEvent
              (startEvent (initialHook : Hook Nat Nat Nat) 4).hook 1 "boom" 4)
            4).hook, some (2, 4))
      ∧ (startEvent (rejectEvent
            (startEvent (initialHook : Hook Nat Nat Nat) 4).hook 1 "boom" 4)
          4).runParams = 4)
    ∧ (when (abortEvent (startEvent (initialHook : Hook Nat Nat Nat) 4).hook).1
        = .failed "aborted" none
      ∧ retryEvent (abortEvent
            (startEvent (initialHook : Hook Nat Nat Nat) 4).hook).1
        = ((abortEvent (startEvent (initialHook : Hook Nat Nat Nat) 4).hook).1,
           none)) :=
  ⟨(retry_reuses_params (rejectEvent
      (startEvent (initialHook : Hook Nat Nat Nat) 4).hook 1 "boom" 4)).1
      "boom" 4 (by decide),
   (retry_reuses_params (abortEvent
      (startEvent (initialHook : Hook Nat Nat Nat) 4).hook).1).2 (by decide)⟩

/-- C7: abort idempotence.  Start a run (the task is busy) and let the
producer register the callbacks `cs` in order.  The first `abort()`
invokes exactly the callbacks `cs`, in registration order, and moves the
task to the aborted state; a second `abort()` leaves the state unchanged
and invokes no callbacks, so each registered callback is invoked exactly
once however many times `abort()` is called. -/
theorem abort_idempotent (h : Hook P S T) (p : P) (cs : List Nat) :
    when (cs.foldl onAbort (startEvent h p).hook) = .busy none
    ∧ (abortEvent (cs.foldl onAbort (startEvent h p).hook)).2 = cs
    ∧ (abortEvent (cs.foldl onAbort (startEvent h p).hook)).1.state = .aborted
    ∧ abortEvent (abortEvent (cs.foldl onAbort (startEvent h p).hook)).1
      = ((abortEvent (cs.foldl onAbort (startEvent h p).hook)).1, []) := by
  have hf : cs.foldl onAbort (startEvent h p).hook
      = { state := .started p, aborted := false, calls := h.calls + 1,
          cancellers := cs } := by
    simp [foldl_onAbort, startEvent]
  refine ⟨?_, ?_, ?_, ?_⟩ <;> simp [hf, abortEvent, when]

/-- C9: delegation to sub-producers.  The context returned by `extend`
keeps the caller-supplied auxiliary methods and shares the parent run's
liveness check (the epoch-bound `isActive`) and cancellation
registration, but its `post` is replaced by a no-op: whatever status a
delegated sub-producer posts, the hook — and hence the busy state the
consumer observes — is unchanged. -/
theorem extend_suppresses_post {A : Type} (aux : A) (ctx : Context P S T)
    (h : Hook P S T) (status : S) (rd : Nat) :
    (extend aux ctx).2.postOp h status = h
    ∧ when ((extend aux ctx).2.postOp h status) = when h
    ∧ (extend aux ctx).2.activeOp = ctx.activeOp
    ∧ (extend aux ctx).2.onAbortOp = ctx.onAbortOp
    ∧ (extend aux ctx).2.round = ctx.round
    ∧ (extend aux ctx).1 = aux
    ∧ (extend aux (newContext rd : Context P S T)).2.activeOp h
      = isActive h rd := by
  exact ⟨rfl, rfl, rfl, rfl, rfl, rfl, rfl⟩

/-- C10: the abort affordance is not guarded by the busy state.  When a
completion is applied (live round, not aborted), the canceller list is
cleared; invoking `abort()` afterwards — from the done or failed state —
still flips the task to the aborted state, which the consumer observes
as failed with the sentinel reason "aborted" and a no-op retry, and
invokes no cancellation callback. -/
theorem abort_after_completion (h : Hook P S T) (round : Nat) (v : T)
    (r : String) (p : P) (hround : round = h.calls)
    (hab : h.aborted = false) :
    (resolveEvent h round v).cancellers = []
    ∧ (abortEvent (resolveEvent h round v)).2 = []
    ∧ (abortEvent (resolveEvent h round v)).1.state = .aborted
    ∧ when (abortEvent (resolveEvent h round v)).1 = .failed "aborted" none
    ∧ (rejectEvent h round r p).cancellers = []
    ∧ (abortEvent (rejectEvent h round r p)).2 = []
    ∧ (abortEvent (rejectEvent h round r p)).1.state = .aborted
    ∧ when (abortEvent (rejectEvent h round r p)).1 = .failed "aborted" none := by
  have hin : isActive h round = true := by simp [isActive, hround, hab]
  refine ⟨?_, ?_, ?_, ?_, ?_, ?_, ?_, ?_⟩ <;>
    simp [resolveEvent, rejectEvent, abortEvent, when, hin, hab]

/-- C10 witness: on a concrete run whose producer registered a callback
and then resolved, a late abort flips the task to failed "aborted"
without invoking the callback. -/
theorem abort_after_completion_witness :
    (resolveEvent (onAbort (startEvent (initialHook : Hook Nat Nat Nat) 2).hook 9)
        1 6).cancellers = []
    ∧ (abortEvent (resolveEvent
          (onAbort (startEvent (initialHook : Hook Nat Nat Nat) 2).hook 9)
          1 6)).2 = []
    ∧ (abortEvent (resolveEvent
          (onAbort (startEvent (initialHook : Hook Nat Nat Nat) 2).hook 9)
          1 6)).1.state = .aborted
    ∧ when (abortEvent (resolveEvent
          (onAbort (startEvent (initialHook : Hook Nat Nat Nat) 2).hook 9)
          1 6)).1 = .failed "aborted" none
    ∧ (rejectEvent (onAbort (startEvent (initialHook : Hook Nat Nat Nat) 2).hook 9)
        1 "boom" 2).cancellers = []
    ∧ (abortEvent (rejectEvent
          (onAbort (startEvent (initialHook : Hook Nat Nat Nat) 2).hook 9)
          1 "boom" 2)).2 = []
    ∧ (abortEvent (rejectEvent
          (onAbort (startEvent (initialHook : Hook Nat Nat Nat) 2).hook 9)
          1 "boom" 2)).1.state = .aborted
    ∧ when (abortEvent (rejectEvent
          (onAbort (startEvent (initialHook : Hook Nat Nat Nat) 2).hook 9)
          1 "boom" 2)).1 = .failed "aborted" none :=
  abort_after_completion
    (onAbort (startEvent (initialHook : Hook Nat Nat Nat) 2).hook 9)
    1 6 "boom" 2 (by decide) (by decide)

end ProgressHook

namespace HackerNews

/-- Replacing a cache entry stores the new identifier list wholesale. -/
lemma entry_setEntry_same (c : Cache) (w : Listing) (l : List Nat) :
    (c.setEntry w l).entry w = l := by
  cases w <;> rfl

/-- Replacing a cache entry leaves every other listing kind's entry
untouched. -/
lemma entry_setEntry_other (c : Cache) (w w' : Listing) (l : List Nat)
    (hne : w' ≠ w) : (c.setEntry w l).entry w' = c.entry w' := by
  cases w <;> cases w' <;> first | rfl | exact absurd rfl hne

/-- The identifier-list collaborator is invoked exactly when the call is
forced or the cache entry for the requested kind is empty. -/
lemma fetchPage_listingFetched {R : Type} (f : Nat → R) (listing : List Nat)
    (cache : Cache) (schedule : List Nat) (allTime page pageSize : Nat)
    (forced : Bool) (which : Listing) :
    (fetchPage f listing cache schedule allTime page pageSize forced
        which).listingFetched
      = (forced || (cache.entry which).isEmpty) := by
  simp only [fetchPage]
  split <;> split <;> rfl

/-- The cache after a run: the requested entry is replaced by the fresh
listing exactly when the listing collaborator was invoked. -/
lemma fetchPage_cacheAfter {R : Type} (f : Nat → R) (listing : List Nat)
    (cache : Cache) (schedule : List Nat) (allTime page pageSize : Nat)
    (forced : Bool) (which : Listing) :
    (fetchPage f listing cache schedule allTime page pageSize forced
        which).cacheAfter
      = if forced || (cache.entry which).isEmpty then
          cache.setEntry which listing
        else cache := by
  simp only [fetchPage]
  split <;> split <;> rfl

/-- C4: forced refresh.  A forced call always invokes the
identifier-list collaborator, also when the cache entry for the
requested kind is already populated, and repopulates that entry
wholesale with the fresh listing while every other kind's entry is
untouched; a non-forced call on a populated entry never invokes the
listing collaborator and leaves the cache as it was. -/
theorem forced_refetch {R : Type} (f : Nat → R) (listing : List Nat)
    (cache : Cache) (schedule : List Nat) (allTime page pageSize : Nat)
    (which : Listing) :
    (fetchPage f listing cache schedule allTime page pageSize true
        which).listingFetched = true
    ∧ (fetchPage f listing cache schedule allTime page pageSize true
        which).cacheAfter.entry which = listing
    ∧ (∀ w, w ≠ which →
        (fetchPage f listing cache schedule allTime page pageSize true
            which).cacheAfter.entry w = cache.entry w)
    ∧ ((cache.entry which).isEmpty = false →
        (fetchPage f listing cache schedule allTime page pageSize false
            which).listingFetched = false
        ∧ (fetchPage f listing cache schedule allTime page pageSize false
            which).cacheAfter = cache) := by
  refine ⟨?_, ?_, ?_, ?_⟩
  · simp [fetchPage_listingFetched]
  · simp [fetchPage_cacheAfter, entry_setEntry_same]
  · intro w hw
    simp [fetchPage_cacheAfter, entry_setEntry_other cache which w listing hw]
  · intro hpop
    constructor
    · simp [fetchPage_listingFetched, hpop]
    · simp [fetchPage_cacheAfter, hpop]

/-- C4 witness: with the top entry already populated, a forced call
refetches and replaces it (other kinds untouched) and a non-forced call
does not refetch. -/
theorem forced_refetch_witness :
    (fetchPage (fun n => n) [7, 8] { top := [1, 2], best := [], new := [] }
        [] 0 0 25 true Listing.top).listingFetched = true
    ∧ (fetchPage (fun n => n) [7, 8] { top := [1, 2], best := [], new := [] }
        [] 0 0 25 true Listing.top).cacheAfter.entry Listing.top = [7, 8]
    ∧ (fetchPage (fun n => n) [7, 8] { top := [1, 2], best := [], new := [] }
        [] 0 0 25 true Listing.top).cacheAfter.entry Listing.best
      = ({ top := [1, 2], best := [], new := [] } : Cache).entry Listing.best
    ∧ ((fetchPage (fun n => n) [7, 8] { top := [1, 2], best := [], new := [] }
          [] 0 0 25 false Listing.top).listingFetched = false
      ∧ (fetchPage (fun n => n) [7, 8] { top := [1, 2], best := [], new := [] }
          [] 0 0 25 false Listing.top).cacheAfter
        = { top := [1, 2], best := [], new := [] }) :=
  ⟨(forced_refetch (fun n => n) [7, 8]
      { top := [1, 2], best := [], new := [] } [] 0 0 25 Listing.top).1,
   (forced_refetch (fun n => n) [7, 8]
      { top := [1, 2], best := [], new := [] } [] 0 0 25 Listing.top).2.1,
   (forced_refetch (fun n => n) [7, 8]
      { top := [1, 2], best := [], new := [] } [] 0 0 25 Listing.top).2.2.1
      Listing.best (by decide),
   (forced_refetch (fun n => n) [7, 8]
      { top := [1, 2], best := [], new := [] } [] 0 0 25 Listing.top).2.2.2
      (by decide)⟩

/-- C8: pagination exhaustion.  Whenever the start offset
`page * pageSize` is at or beyond the length of the identifier list in
effect (the cache entry, or the fresh listing when it was refetched),
`fetchPage` resolves with the empty page — a success, not an error —
invokes no item fetch and posts nothing. -/
theorem page_past_end_empty {R : Type} (f : Nat → R) (listing : List Nat)
    (cache : Cache) (schedule : List Nat) (allTime page pageSize : Nat)
    (forced : Bool) (which : Listing)
    (hpast : (if forced || (cache.entry which).isEmpty then listing
              else cache.entry which).length ≤ page * pageSize) :
    (fetchPage f listing cache schedule allTime page pageSize forced
        which).result.2 = .resolved []
    ∧ (fetchPage f listing cache schedule allTime page pageSize forced
        which).itemFetchIds = []
    ∧ (fetchPage f listing cache schedule allTime page pageSize forced
        which).posts = [] := by
  refine ⟨?_, ?_, ?_⟩ <;>
  · simp only [fetchPage]
    rw [if_pos hpast]

/-- C8 witness: a populated cache of ten identifiers with page size 25
and page index 1 (start offset 25 beyond length 10) yields the empty
page without any item fetch or post. -/
theorem page_past_end_empty_witness :
    (fetchPage (fun n => n) []
        { top := [0, 1, 2, 3, 4, 5, 6, 7, 8, 9], best := [], new := [] }
        [] 0 1 25 false Listing.top).result.2 = .resolved []
    ∧ (fetchPage (fun n => n) []
        { top := [0, 1, 2, 3, 4, 5, 6, 7, 8, 9], best := [], new := [] }
        [] 0 1 25 false Listing.top).itemFetchIds = []
    ∧ (fetchPage (fun n => n) []
        { top := [0, 1, 2, 3, 4, 5, 6, 7, 8, 9], best := [], new := [] }
        [] 0 1 25 false Listing.top).posts = [] :=
  page_past_end_empty (fun n => n) []
    { top := [0, 1, 2, 3, 4, 5, 6, 7, 8, 9], best := [], new := [] }
    [] 0 1 25 false Listing.top (by decide)

end HackerNews

namespace HackerNews

/-- C3 counterexample: `fetchPage(0, {pageSize: 3})` on a fresh cache
with listing [10, 11, 12] and the item fetches settling in slot order.
The run does post the raw identifiers first, but the write and re-post
for the last resolving slot are suppressed by `if (--remaining)`, so the
last posted array before the final done still holds the raw identifier
12 in its third slot — it does not have all three slots resolved. -/
theorem last_resolving_post_suppressed :
    (fetchPage mkItem [10, 11, 12] emptyCache [0, 1, 2] 5 0 3 false
        Listing.top).posts.getLastD []
      = [Sum.inr (mkItem 10), Sum.inr (mkItem 11), Sum.inl 12]
    ∧ ((fetchPage mkItem [10, 11, 12] emptyCache [0, 1, 2] 5 0 3 false
        Listing.top).posts.getLastD []).any isRawId = true
    ∧ (fetchPage mkItem [10, 11, 12] emptyCache [0, 1, 2] 5 0 3 false
        Listing.top).result
      = (5, .resolved [mkItem 10, mkItem 11, mkItem 12]) :=
  ⟨rfl, rfl, rfl⟩

/-- C3 amended: `fetchPage(0, {pageSize: 3})` on a fresh cache with
listing [a, b, c] first posts the array holding the raw identifier of
every slot; each settling item fetch except the last writes the resolved
item into its slot of that array and re-posts it, while the write and
re-post of the last resolving slot are suppressed, so exactly three
arrays are posted and the last one has exactly one raw slot — the slot
of the last fetch to settle; the final done (within the deadline)
carries all three resolved items. -/
theorem page3_streaming {R : Type} (f : Nat → R) (a b c : Nat)
    (schedule : List Nat)
    (hs : schedule ∈ [[0, 1, 2], [0, 2, 1], [1, 0, 2], [1, 2, 0],
                      [2, 0, 1], [2, 1, 0]])
    (allTime : Nat) (ht : allTime < 10000) :
    (fetchPage f [a, b, c] emptyCache schedule allTime 0 3 false
        Listing.top).listingFetched = true
    ∧ (fetchPage f [a, b, c] emptyCache schedule allTime 0 3 false
        Listing.top).posts.head?
      = some [Sum.inl a, Sum.inl b, Sum.inl c]
    ∧ (fetchPage f [a, b, c] emptyCache schedule allTime 0 3 false
        Listing.top).posts.length = 3
    ∧ ((fetchPage f [a, b, c] emptyCache schedule allTime 0 3 false
        Listing.top).posts.getLastD []).countP isRawId = 1
    ∧ isRawId (((fetchPage f [a, b, c] emptyCache schedule allTime 0 3 false
          Listing.top).posts.getLastD []).getD (schedule.getLastD 0)
        (Sum.inl 0)) = true
    ∧ (fetchPage f [a, b, c] emptyCache schedule allTime 0 3 false
        Listing.top).result = (allTime, .resolved [f a, f b, f c]) := by
  have hres : withTimeout 10000
      (allTime, PromiseOutcome.resolved [f a, f b, f c])
      = (allTime, PromiseOutcome.resolved [f a, f b, f c]) := by
    simp [withTimeout, race, ht]
  simp only [List.mem_cons, List.mem_singleton, List.not_mem_nil,
    or_false] at hs
  rcases hs with rfl | rfl | rfl | rfl | rfl | rfl <;>
    exact ⟨rfl, rfl, rfl, rfl, rfl, hres⟩

/-- C3 amended witness: concrete instance with listing [10, 11, 12],
settlement order slot 0, slot 2, slot 1, aggregate settling at time 5. -/
theorem page3_streaming_witness :
    (fetchPage mkItem [10, 11, 12] emptyCache [0, 2, 1] 5 0 3 false
        Listing.top).listingFetched = true
    ∧ (fetchPage mkItem [10, 11, 12] emptyCache [0, 2, 1] 5 0 3 false
        Listing.top).posts.head?
      = some [Sum.inl 10, Sum.inl 11, Sum.inl 12]
    ∧ (fetchPage mkItem [10, 11, 12] emptyCache [0, 2, 1] 5 0 3 false
        Listing.top).posts.length = 3
    ∧ ((fetchPage mkItem [10, 11, 12] emptyCache [0, 2, 1] 5 0 3 false
        Listing.top).posts.getLastD []).countP isRawId = 1
    ∧ isRawId (((fetchPage mkItem [10, 11, 12] emptyCache [0, 2, 1] 5 0 3
          false Listing.top).posts.getLastD []).getD
        (([0, 2, 1] : List Nat).getLastD 0) (Sum.inl 0)) = true
    ∧ (fetchPage mkItem [10, 11, 12] emptyCache [0, 2, 1] 5 0 3 false
        Listing.top).result
      = (5, .resolved [mkItem 10, mkItem 11, mkItem 12]) :=
  page3_streaming mkItem 10 11 12 [0, 2, 1] (by decide) 5 (by decide)

/-- C5: the deadline racer.  When the raced operation settles strictly
before the deadline, `withTimeout` returns the operation's own
settlement; when the timer elapses strictly first, the overall result is
the rejection with the fixed sentinel "timeout", whatever the
operation's own outcome is.  The page fetch races the aggregate of its
item fetches against the fixed 10 000 time-unit deadline, so an
aggregate settling after 10 000 makes `fetchPage` fail with the timeout
sentinel. -/
theorem deadline_race {α R : Type} (d : Nat) (op : Nat × PromiseOutcome α)
    (f : Nat → R) (listing : List Nat) (cache : Cache) (schedule : List Nat)
    (allTime page pageSize : Nat) (forced : Bool) (which : Listing) :
    (op.1 < d → withTimeout d op = op)
    ∧ (d < op.1 → withTimeout d op = (d, .rejected "timeout"))
    ∧ (page * pageSize
        < (if forced || (cache.entry which).isEmpty then listing
           else cache.entry which).length →
      (fetchPage f listing cache schedule allTime page pageSize forced
          which).result
        = withTimeout 10000
            (allTime, .resolved
              ((((if forced || (cache.entry which).isEmpty then listing
                  else cache.entry which).drop (page * pageSize)).take
                  pageSize).map f)))
    ∧ (page * pageSize
        < (if forced || (cache.entry which).isEmpty then listing
           else cache.entry which).length → 10000 < allTime →
      (fetchPage f listing cache schedule allTime page pageSize forced
          which).result = (10000, .rejected "timeout")) := by
  refine ⟨?_, ?_, ?_, ?_⟩
  · intro hlt
    simp [withTimeout, race, hlt]
  · intro hlt
    have hn : ¬ op.1 < d := by omega
    simp [withTimeout, race, hn]
  · intro hlt
    have hn : ¬ ((if forced || (cache.entry which).isEmpty then listing
        else cache.entry which).length ≤ page * pageSize) := by omega
    simp only [fetchPage]
    rw [if_neg hn]
  · intro hlt h10
    have hn : ¬ ((if forced || (cache.entry which).isEmpty then listing
        else cache.entry which).length ≤ page * pageSize) := by omega
    have h10n : ¬ allTime < 10000 := by omega
    simp only [fetchPage]
    rw [if_neg hn]
    simp [withTimeout, race, h10n]

/-- C5 witness: an operation settling at time 3 beats a deadline of 10;
an operation settling at time 25 loses to it and the result is the
timeout rejection; a concrete page fetch whose aggregate settles at time
20 000 is raced against the 10 000 deadline and fails with the timeout
sentinel. -/
theorem deadline_race_witness :
    withTimeout 10 ((3, PromiseOutcome.resolved 1) : Nat × PromiseOutcome Nat)
      = (3, PromiseOutcome.resolved 1)
    ∧ withTimeout 10
        ((25, PromiseOutcome.resolved 1) : Nat × PromiseOutcome Nat)
      = (10, PromiseOutcome.rejected "timeout")
    ∧ (fetchPage (fun n => n) []
        { top := [1, 2, 3], best := [], new := [] }
        [0, 1, 2] 20000 0 3 false Listing.top).result
      = withTimeout 10000 (20000, PromiseOutcome.resolved [1, 2, 3])
    ∧ (fetchPage (fun n => n) []
        { top := [1, 2, 3], best := [], new := [] }
        [0, 1, 2] 20000 0 3 false Listing.top).result
      = (10000, PromiseOutcome.rejected "timeout") :=
  ⟨(deadline_race 10 (3, PromiseOutcome.resolved 1) (fun n : Nat => n) []
      { top := [1, 2, 3], best := [], new := [] } [0, 1, 2] 20000 0 3 false
      Listing.top).1 (by decide),
   (deadline_race 10 (25, PromiseOutcome.resolved 1) (fun n : Nat => n) []
      { top := [1, 2, 3], best := [], new := [] } [0, 1, 2] 20000 0 3 false
      Listing.top).2.1 (by decide),
   (deadline_race 10 ((3, PromiseOutcome.resolved 1) : Nat × PromiseOutcome Nat)
      (fun n : Nat => n) [] { top := [1, 2, 3], best := [], new := [] }
      [0, 1, 2] 20000 0 3 false Listing.top).2.2.1 (by decide),
   (deadline_race 10 ((3, PromiseOutcome.resolved 1) : Nat × PromiseOutcome Nat)
      (fun n : Nat => n) [] { top := [1, 2, 3], best := [], new := [] }
      [0, 1, 2] 20000 0 3 false Listing.top).2.2.2 (by decide) (by decide)⟩

end HackerNews
